import Mathlib

/-!
Verification of the Tilely composition/export core against its code.

The definitions below are a shallow embedding of `src/lib/canvas-utils`
(`src/unnamed/part_009`), `src/lib/exporter.ts`, and
`src/lib/video-exporter.ts`.  JavaScript numbers are modelled as exact
rationals (`ℚ`), JavaScript `undefined`/`null`/NaN as `Option`, thrown
exceptions as `Except String`.  Browser/OS effects (canvas pixels, blobs,
processes) are abstracted to the pure data each function computes.
-/

namespace Tilely

/-! ## JavaScript numeric and string primitives -/

/-- JavaScript `Math.round`: round half toward positive infinity. -/
def jsRound (q : ℚ) : ℤ := ⌊q + 1/2⌋

instance {ε α : Type} [DecidableEq ε] [DecidableEq α] : DecidableEq (Except ε α) := fun a b =>
  match a, b with
  | .ok x, .ok y =>
    if h : x = y then .isTrue (by rw [h]) else .isFalse (by simp [h])
  | .error x, .error y =>
    if h : x = y then .isTrue (by rw [h]) else .isFalse (by simp [h])
  | .ok _, .error _ => .isFalse (by simp)
  | .error _, .ok _ => .isFalse (by simp)

/-- Value of a list of decimal digit characters. -/
def digitsVal (cs : List Char) : ℕ :=
  cs.foldl (fun a c => a * 10 + (c.toNat - 48)) 0

/-- Decimal literal body of JavaScript `Number()`: digits with an optional
single decimal point, at least one digit overall. -/
def jsDecimal (cs : List Char) : Option ℚ :=
  let intPart := cs.takeWhile Char.isDigit
  let rest := cs.dropWhile Char.isDigit
  match rest with
  | [] => if intPart.isEmpty then none else some (digitsVal intPart)
  | '.' :: frac =>
    if frac.all Char.isDigit && !(intPart.isEmpty && frac.isEmpty) then
      some ((digitsVal intPart : ℚ) + (digitsVal frac : ℚ) / (10 : ℚ) ^ frac.length)
    else none
  | _ => none

/-- Model of JavaScript `Number(string)` restricted to finite results:
surrounding whitespace is ignored, the empty string converts to 0, an
optional sign precedes a decimal literal; any other input — which in
JavaScript yields NaN or ±Infinity — is `none`, exactly the values the
source rejects with its `Number.isFinite` checks. -/
def jsStrToNum (cs : List Char) : Option ℚ :=
  let trimmed := ((cs.dropWhile Char.isWhitespace).reverse.dropWhile Char.isWhitespace).reverse
  match trimmed with
  | [] => some 0
  | '+' :: rest => jsDecimal rest
  | '-' :: rest => (jsDecimal rest).map (fun q => -q)
  | _ => jsDecimal trimmed

/-- JavaScript `String.prototype.split` with a one-character separator,
acting on the character list. -/
def splitOnChar (sep : Char) : List Char → List (List Char)
  | [] => [[]]
  | c :: rest =>
    match splitOnChar sep rest with
    | [] => [[]]
    | cur :: parts => if c = sep then [] :: cur :: parts else (c :: cur) :: parts

/-! ## Data model (`src/lib/types`) -/

inductive AssetType
  | video
  | image
  | logo
  | audio
deriving DecidableEq, Repr

structure Asset where
  id : String
  name : String := ""
  type : AssetType
  url : String := ""
  size : Option ℚ := none
  width : Option ℚ := none
  height : Option ℚ := none
  duration : Option ℚ := none
  fps : Option ℚ := none
  audioBitrateKbps : Option ℚ := none
deriving DecidableEq, Repr

inductive FitMode
  | cover
  | contain
deriving DecidableEq, Repr

structure Track where
  id : String := ""
  assetId : String
  cellIndex : ℕ
  duration : Option ℚ := none
  fit : Option FitMode := none
  panX : Option ℚ := none
  panY : Option ℚ := none
  scale : Option ℚ := none
deriving DecidableEq, Repr

structure GridCell where
  id : String := ""
  row : ℕ
  col : ℕ
deriving DecidableEq, Repr

structure CompositionGrid where
  rows : ℕ
  cols : ℕ
  cells : List GridCell
deriving DecidableEq, Repr

structure CompositionStyle where
  gap : Option ℚ := none
  padding : Option ℚ := none
  radius : Option ℚ := none
  borderWidth : Option ℚ := none
  borderColor : Option String := none
  borderOpacity : Option ℚ := none
  backgroundColor : Option String := none
deriving DecidableEq, Repr

structure Composition where
  aspectRatio : String
  grid : CompositionGrid
  style : CompositionStyle
  bgColor : Option String := none
deriving DecidableEq, Repr

structure Project where
  id : String := ""
  title : String := ""
  assets : List Asset
  composition : Composition
  tracks : List Track
deriving DecidableEq, Repr

/-! ## Geometry engine (`canvas-utils`, `src/unnamed/part_009`) -/

structure Aspect where
  width : ℚ
  height : ℚ
deriving DecidableEq, Repr

/-- `parseAspectRatio`: split on ":", convert both parts with `Number`, and
fall back to 1:1 when either part is not finite or the height is 0. -/
def parseAspectRatio (value : String) : Aspect :=
  let parts := splitOnChar ':' value.toList
  match (parts.get? 0).bind jsStrToNum, (parts.get? 1).bind jsStrToNum with
  | some w, some h => if h = 0 then ⟨1, 1⟩ else ⟨w, h⟩
  | _, _ => ⟨1, 1⟩

def BASE_EXPORT_SIZE : ℚ := 2048

structure CanvasLayout where
  canvasWidth : ℚ
  canvasHeight : ℚ
  padding : ℚ
  gap : ℚ
  innerWidth : ℚ
  innerHeight : ℚ
  cellWidth : ℚ
  cellHeight : ℚ
deriving DecidableEq, Repr

/-- `Math.max(1, baseSize)` from `calculateCanvasLayout`. -/
def clampedBaseSizeOf (baseSize : ℚ) : ℚ := max 1 baseSize

/-- `clampedBaseSize / Math.max(aspectMaxDimension, 1)`. -/
def scaleFactorOf (c : Composition) (baseSize : ℚ) : ℚ :=
  let a := parseAspectRatio c.aspectRatio
  clampedBaseSizeOf baseSize / max (max a.width a.height) 1

/-- `Math.round(aspectWidth * scaleFactor)`. -/
def canvasWidthOf (c : Composition) (baseSize : ℚ) : ℤ :=
  jsRound ((parseAspectRatio c.aspectRatio).width * scaleFactorOf c baseSize)

/-- `Math.round(aspectHeight * scaleFactor)`. -/
def canvasHeightOf (c : Composition) (baseSize : ℚ) : ℤ :=
  jsRound ((parseAspectRatio c.aspectRatio).height * scaleFactorOf c baseSize)

/-- `composition.style.padding ?? 0`. -/
def paddingOf (c : Composition) : ℚ := c.style.padding.getD 0

/-- `composition.style.gap ?? 0`. -/
def gapOf (c : Composition) : ℚ := c.style.gap.getD 0

/-- `canvasWidth - padding * 2`. -/
def innerWidthOf (c : Composition) (baseSize : ℚ) : ℚ :=
  (canvasWidthOf c baseSize : ℚ) - paddingOf c * 2

/-- `canvasHeight - padding * 2`. -/
def innerHeightOf (c : Composition) (baseSize : ℚ) : ℚ :=
  (canvasHeightOf c baseSize : ℚ) - paddingOf c * 2

/-- `calculateCanvasLayout` from `canvas-utils`: scale the parsed aspect to
the clamped base size, subtract padding, throw when the inner area is not
positive, then divide the inner area uniformly into grid cells.  The
JavaScript `throw new Error(...)` is modelled as `Except.error` with the
source's message. -/
def calculateCanvasLayout (c : Composition) (baseSize : ℚ := BASE_EXPORT_SIZE) :
    Except String CanvasLayout :=
  if innerWidthOf c baseSize ≤ 0 ∨ innerHeightOf c baseSize ≤ 0 then
    .error "Composition size is too small to render."
  else
    .ok
      { canvasWidth := (canvasWidthOf c baseSize : ℚ)
        canvasHeight := (canvasHeightOf c baseSize : ℚ)
        padding := paddingOf c
        gap := gapOf c
        innerWidth := innerWidthOf c baseSize
        innerHeight := innerHeightOf c baseSize
        cellWidth :=
          (innerWidthOf c baseSize - gapOf c * ((c.grid.cols : ℚ) - 1)) / (c.grid.cols : ℚ)
        cellHeight :=
          (innerHeightOf c baseSize - gapOf c * ((c.grid.rows : ℚ) - 1)) / (c.grid.rows : ℚ) }

/-- `Math.round` is within a half of its argument. -/
theorem abs_jsRound_sub_le (q : ℚ) : |(jsRound q : ℚ) - q| ≤ 1/2 := by
  rw [jsRound, abs_le]
  have h1 := Int.sub_one_lt_floor (q + 1/2)
  have h2 := Int.floor_le (q + 1/2)
  constructor <;> linarith

/-- Aspect strings whose parse fails (a component is missing or not a finite
number) or whose height component is zero — the inputs the source sends to
the 1:1 fallback. -/
def malformedAspect (value : String) : Bool :=
  let parts := splitOnChar ':' value.toList
  match (parts.get? 0).bind jsStrToNum, (parts.get? 1).bind jsStrToNum with
  | some _, some h => decide (h = 0)
  | _, _ => true

/-- C1: for every composition whose aspect ratio string parses to positive W
and H and whose padding leaves a positive inner area (so that
`calculateCanvasLayout` succeeds), on a grid with at least one column the
layout satisfies `innerWidth = canvasWidth - 2·padding`,
`innerHeight = canvasHeight - 2·padding`, the exact rational identity
`cellWidth·cols + gap·(cols-1) = innerWidth`, and the canvas dimensions are
within integer-rounding tolerance (≤ 1/2) of the scaled aspect `W·s`, `H·s`. -/
theorem calculateCanvasLayout_uniform (c : Composition) (b W H : ℚ) (l : CanvasLayout)
    (hparse : parseAspectRatio c.aspectRatio = ⟨W, H⟩) (hW : 0 < W) (hH : 0 < H)
    (hcols : 0 < c.grid.cols)
    (hok : calculateCanvasLayout c b = .ok l) :
    l.innerWidth = l.canvasWidth - 2 * l.padding ∧
    l.innerHeight = l.canvasHeight - 2 * l.padding ∧
    l.cellWidth * (c.grid.cols : ℚ) + l.gap * ((c.grid.cols : ℚ) - 1) = l.innerWidth ∧
    |l.canvasWidth - W * scaleFactorOf c b| ≤ 1 / 2 ∧
    |l.canvasHeight - H * scaleFactorOf c b| ≤ 1 / 2 := by
  unfold calculateCanvasLayout at hok
  split at hok
  · simp at hok
  · rw [Except.ok.injEq] at hok
    subst hok
    have hcolsQ : ((c.grid.cols : ℚ)) ≠ 0 := by
      exact_mod_cast hcols.ne'
    refine ⟨?_, ?_, ?_, ?_, ?_⟩
    · simp only [innerWidthOf]; ring
    · simp only [innerHeightOf]; ring
    · field_simp
    · have := abs_jsRound_sub_le ((parseAspectRatio c.aspectRatio).width * scaleFactorOf c b)
      simpa [canvasWidthOf, hparse] using this
    · have := abs_jsRound_sub_le ((parseAspectRatio c.aspectRatio).height * scaleFactorOf c b)
      simpa [canvasHeightOf, hparse] using this

def c1Comp : Composition :=
  { aspectRatio := "16:9"
    grid := { rows := 1, cols := 2, cells := [⟨"", 0, 0⟩, ⟨"", 0, 1⟩] }
    style := { gap := some 12, padding := some 24 } }

def c1Layout : CanvasLayout :=
  { canvasWidth := 2048, canvasHeight := 1152, padding := 24, gap := 12,
    innerWidth := 2000, innerHeight := 1104, cellWidth := 994, cellHeight := 1104 }

/-- Concrete evaluation of `calculateCanvasLayout` on the 16:9 witness. -/
theorem c1Layout_eval : calculateCanvasLayout c1Comp 2048 = .ok c1Layout := by
  have hw : canvasWidthOf c1Comp 2048 = 2048 := by
    have hp : parseAspectRatio c1Comp.aspectRatio = ⟨16, 9⟩ := by decide
    simp only [canvasWidthOf, scaleFactorOf, clampedBaseSizeOf, hp, jsRound]
    norm_num [Int.floor_eq_iff, max_def]
  have hh : canvasHeightOf c1Comp 2048 = 1152 := by
    have hp : parseAspectRatio c1Comp.aspectRatio = ⟨16, 9⟩ := by decide
    simp only [canvasHeightOf, scaleFactorOf, clampedBaseSizeOf, hp, jsRound]
    norm_num [Int.floor_eq_iff, max_def]
  have hpad : paddingOf c1Comp = 24 := by decide
  have hgap : gapOf c1Comp = 12 := by decide
  simp only [calculateCanvasLayout, innerWidthOf, innerHeightOf, hw, hh, hpad, hgap]
  norm_num [c1Comp, c1Layout]

/-- Witness for C1 at the 16:9, padding 24, gap 12, 1×2 composition. -/
theorem calculateCanvasLayout_uniform_witness :
    parseAspectRatio c1Comp.aspectRatio = ⟨16, 9⟩ ∧
    calculateCanvasLayout c1Comp 2048 = .ok c1Layout ∧
    (c1Layout.innerWidth = c1Layout.canvasWidth - 2 * c1Layout.padding ∧
     c1Layout.innerHeight = c1Layout.canvasHeight - 2 * c1Layout.padding ∧
     c1Layout.cellWidth * (c1Comp.grid.cols : ℚ) +
       c1Layout.gap * ((c1Comp.grid.cols : ℚ) - 1) = c1Layout.innerWidth ∧
     |c1Layout.canvasWidth - 16 * scaleFactorOf c1Comp 2048| ≤ 1 / 2 ∧
     |c1Layout.canvasHeight - 9 * scaleFactorOf c1Comp 2048| ≤ 1 / 2) :=
  ⟨by decide, c1Layout_eval,
   calculateCanvasLayout_uniform c1Comp 2048 16 9 c1Layout (by decide)
     (by norm_num) (by norm_num) (by decide) c1Layout_eval⟩

/-- C2: every aspect string whose parse fails or whose height component is 0
is sent by `parseAspectRatio` to the 1:1 fallback, and a composition carrying
such a string lays out as a square canvas without an error, provided the
padding leaves a positive inner area. -/
theorem parseAspectRatio_fallback_square (value : String) (c : Composition) (b : ℚ)
    (hm : malformedAspect value = true) (hc : c.aspectRatio = value)
    (hpos : 0 < innerWidthOf c b) :
    parseAspectRatio value = ⟨1, 1⟩ ∧
    ∃ l, calculateCanvasLayout c b = .ok l ∧ l.canvasWidth = l.canvasHeight := by
  have hparse : parseAspectRatio value = ⟨1, 1⟩ := by
    unfold malformedAspect at hm
    unfold parseAspectRatio
    rcases h0 : (splitOnChar ':' value.toList).get? 0 |>.bind jsStrToNum with _ | w <;>
      rcases h1 : (splitOnChar ':' value.toList).get? 1 |>.bind jsStrToNum with _ | h <;>
        simp only [h0, h1] at hm ⊢
    rw [decide_eq_true_iff] at hm
    simp [hm]
  have hWH : canvasHeightOf c b = canvasWidthOf c b := by
    simp only [canvasHeightOf, canvasWidthOf, scaleFactorOf, hc, hparse]
  have hih : innerHeightOf c b = innerWidthOf c b := by
    simp only [innerHeightOf, innerWidthOf, hWH]
  refine ⟨hparse, ?_⟩
  unfold calculateCanvasLayout
  rw [if_neg]
  · exact ⟨_, rfl, by simp only [hWH]⟩
  · rw [hih]
    intro hcon
    rcases hcon with hcon | hcon <;> linarith

def c2Comp : Composition :=
  { aspectRatio := "4:0"
    grid := { rows := 1, cols := 1, cells := [⟨"", 0, 0⟩] }
    style := { padding := some 10 } }

/-- Witness for C2: the four malformed examples all fall back, and the
"4:0" composition lays out as a square without an error. -/
theorem parseAspectRatio_fallback_square_witness :
    malformedAspect "" = true ∧ malformedAspect "abc" = true ∧
    malformedAspect "4:0" = true ∧ malformedAspect "4" = true ∧
    (parseAspectRatio "4:0" = ⟨1, 1⟩ ∧
     ∃ l, calculateCanvasLayout c2Comp 2048 = .ok l ∧ l.canvasWidth = l.canvasHeight) := by
  refine ⟨by decide, by decide, by decide, by decide, ?_⟩
  refine parseAspectRatio_fallback_square "4:0" c2Comp 2048 (by decide) (by decide) ?_
  have hw : canvasWidthOf c2Comp 2048 = 2048 := by
    have hp : parseAspectRatio c2Comp.aspectRatio = ⟨1, 1⟩ := by decide
    simp only [canvasWidthOf, scaleFactorOf, clampedBaseSizeOf, hp, jsRound]
    norm_num [Int.floor_eq_iff, max_def]
  have hpad : paddingOf c2Comp = 10 := by decide
  simp only [innerWidthOf, hw, hpad]
  norm_num

/-- C3: `calculateCanvasLayout` reports an error exactly when the computed
inner width or inner height is not positive; the error is the source's size
message; and whether it errors is independent of the grid — the only input
to the cell dimensions — so the failure is decided during layout, before any
cell dimension is computed. -/
theorem calculateCanvasLayout_error_iff (c : Composition) (b : ℚ) :
    ((∃ e, calculateCanvasLayout c b = .error e) ↔
      innerWidthOf c b ≤ 0 ∨ innerHeightOf c b ≤ 0) ∧
    (∀ e, calculateCanvasLayout c b = .error e →
      e = "Composition size is too small to render.") ∧
    (∀ g, ((∃ e, calculateCanvasLayout { c with grid := g } b = .error e) ↔
      (∃ e, calculateCanvasLayout c b = .error e))) := by
  have hgrid : ∀ g : CompositionGrid,
      innerWidthOf { c with grid := g } b = innerWidthOf c b ∧
      innerHeightOf { c with grid := g } b = innerHeightOf c b := by
    intro g
    constructor <;>
      simp only [innerWidthOf, innerHeightOf, canvasWidthOf, canvasHeightOf,
        scaleFactorOf, paddingOf]
  refine ⟨?_, ?_, ?_⟩
  · unfold calculateCanvasLayout
    by_cases hcond : innerWidthOf c b ≤ 0 ∨ innerHeightOf c b ≤ 0 <;>
      simp [hcond]
  · intro e he
    unfold calculateCanvasLayout at he
    split at he
    · exact (Except.error.inj he).symm
    · simp at he
  · intro g
    unfold calculateCanvasLayout
    by_cases hcond : innerWidthOf c b ≤ 0 ∨ innerHeightOf c b ≤ 0
    · have hcond' : innerWidthOf { c with grid := g } b ≤ 0 ∨
          innerHeightOf { c with grid := g } b ≤ 0 := by
        rw [(hgrid g).1, (hgrid g).2]; exact hcond
      simp [hcond, hcond']
    · have hcond' : ¬(innerWidthOf { c with grid := g } b ≤ 0 ∨
          innerHeightOf { c with grid := g } b ≤ 0) := by
        rw [(hgrid g).1, (hgrid g).2]; exact hcond
      simp [hcond, hcond']

def c3Comp : Composition :=
  { aspectRatio := "1:1"
    grid := { rows := 1, cols := 1, cells := [⟨"", 0, 0⟩] }
    style := { padding := some 2000 } }

/-- Witness for C3: with a 1:1 aspect at base 2048 and padding 2000 the
inner width is negative and layout errors. -/
theorem calculateCanvasLayout_error_iff_witness :
    innerWidthOf c3Comp 2048 ≤ 0 ∧ (∃ e, calculateCanvasLayout c3Comp 2048 = .error e) := by
  have hw : canvasWidthOf c3Comp 2048 = 2048 := by
    have hp : parseAspectRatio c3Comp.aspectRatio = ⟨1, 1⟩ := by decide
    simp only [canvasWidthOf, scaleFactorOf, clampedBaseSizeOf, hp, jsRound]
    norm_num [Int.floor_eq_iff, max_def]
  have hpad : paddingOf c3Comp = 2000 := by decide
  have hneg : innerWidthOf c3Comp 2048 ≤ 0 := by
    simp only [innerWidthOf, hw, hpad]
    norm_num
  exact ⟨hneg, (calculateCanvasLayout_error_iff c3Comp 2048).1.mpr (Or.inl hneg)⟩

/-! ## `hexToRgba` (`canvas-utils`) -/

/-- The hexadecimal digit table consumed by JavaScript `parseInt(·, 16)`:
decimal digits and the letters a-f in either case. -/
def hexDigitPairs : List (Char × ℕ) :=
  [('0', 0), ('1', 1), ('2', 2), ('3', 3), ('4', 4), ('5', 5), ('6', 6), ('7', 7),
   ('8', 8), ('9', 9), ('a', 10), ('b', 11), ('c', 12), ('d', 13), ('e', 14), ('f', 15),
   ('A', 10), ('B', 11), ('C', 12), ('D', 13), ('E', 14), ('F', 15)]

/-- Value of one hexadecimal digit character. -/
def hexDigitVal (c : Char) : Option ℕ :=
  (hexDigitPairs.find? (fun p => p.1 = c)).map Prod.snd

/-- Model of JavaScript `parseInt(s, 16)`: skip leading whitespace, read an
optional sign and an optional `0x`/`0X` prefix, then the maximal run of hex
digits; no digits means NaN (`none`). -/
def jsParseIntHex (cs : List Char) : Option ℤ :=
  let cs₁ := cs.dropWhile Char.isWhitespace
  let sign : ℤ := if cs₁.head? = some '-' then -1 else 1
  let cs₂ := if cs₁.head? = some '-' ∨ cs₁.head? = some '+' then cs₁.tail else cs₁
  let cs₃ := if cs₂.take 2 = ['0', 'x'] ∨ cs₂.take 2 = ['0', 'X'] then cs₂.drop 2 else cs₂
  let ds := cs₃.takeWhile (fun c => (hexDigitVal c).isSome)
  if ds.isEmpty then none
  else some (sign * ds.foldl (fun a c => a * 16 + (((hexDigitVal c).getD 0 : ℕ) : ℤ)) 0)

/-- JavaScript `String.prototype.replace` with the literal pattern `"#"` and
empty replacement: only the first occurrence is removed. -/
def removeFirstHash : List Char → List Char
  | [] => []
  | c :: rest => if c = '#' then rest else c :: removeFirstHash rest

/-- Structured content of the `rgba(r, g, b, opacity)` template string built
by `hexToRgba`; a `none` channel stands for NaN from `parseInt`. -/
structure Rgba where
  r : Option ℤ
  g : Option ℤ
  b : Option ℤ
  a : ℚ
deriving DecidableEq, Repr

/-- `hexToRgba` from `canvas-utils`: strip the first `#`, degrade to white at
the given opacity when the normalized string is not 6 characters long,
otherwise parse the three 2-character slices as hex bytes. -/
def hexToRgba (hex : String) (opacity : ℚ := 1) : Rgba :=
  let normalized := removeFirstHash hex.toList
  if normalized.length ≠ 6 then
    ⟨some 255, some 255, some 255, opacity⟩
  else
    ⟨jsParseIntHex (normalized.take 2),
     jsParseIntHex ((normalized.drop 2).take 2),
     jsParseIntHex ((normalized.drop 4).take 2),
     opacity⟩

/-- A hex digit is not whitespace, a sign, or an `x`, and its value is below
16. -/
theorem hexDigitVal_facts (c : Char) (v : ℕ) (h : hexDigitVal c = some v) :
    c.isWhitespace = false ∧ c ≠ '-' ∧ c ≠ '+' ∧ c ≠ 'x' ∧ c ≠ 'X' ∧ v < 16 := by
  rcases hfind : hexDigitPairs.find? (fun p => p.1 = c) with _ | p
  · rw [hexDigitVal, hfind] at h
    exact Option.noConfusion h
  · have hp := List.find?_some hfind
    have hmem := List.mem_of_find?_eq_some hfind
    rw [hexDigitVal, hfind] at h
    obtain rfl : p.2 = v := Option.some.inj h
    have hc : p.1 = c := by simpa using hp
    subst hc
    fin_cases hmem <;> decide

/-- `parseInt(·, 16)` of two hex digit characters is the hex byte value. -/
theorem jsParseIntHex_pair (c₀ c₁ : Char) (v₀ v₁ : ℕ)
    (h₀ : hexDigitVal c₀ = some v₀) (h₁ : hexDigitVal c₁ = some v₁) :
    jsParseIntHex [c₀, c₁] = some (16 * v₀ + v₁ : ℤ) := by
  obtain ⟨hw₀, hm₀, hp₀, hx₀, hX₀, _⟩ := hexDigitVal_facts c₀ v₀ h₀
  obtain ⟨hw₁, _, _, hx₁, hX₁, _⟩ := hexDigitVal_facts c₁ v₁ h₁
  simp [jsParseIntHex, List.dropWhile, List.takeWhile, hw₀, hm₀, hp₀, hx₁, hX₁, h₀, h₁]
  ring

/-- C8 (amended): a color whose `#`-normalized form is six hex digits is
converted to its three parsed byte values with the supplied opacity, and a
malformed color (normalized length ≠ 6) degrades to white at the supplied
opacity — opaque white only when the opacity is 1. -/
theorem hexToRgba_spec (hex : String) (opacity : ℚ) :
    (∀ c₀ c₁ c₂ c₃ c₄ c₅ v₀ v₁ v₂ v₃ v₄ v₅,
      removeFirstHash hex.toList = [c₀, c₁, c₂, c₃, c₄, c₅] →
      hexDigitVal c₀ = some v₀ → hexDigitVal c₁ = some v₁ →
      hexDigitVal c₂ = some v₂ → hexDigitVal c₃ = some v₃ →
      hexDigitVal c₄ = some v₄ → hexDigitVal c₅ = some v₅ →
      hexToRgba hex opacity =
        ⟨some (16 * v₀ + v₁ : ℤ), some (16 * v₂ + v₃ : ℤ),
         some (16 * v₄ + v₅ : ℤ), opacity⟩) ∧
    ((removeFirstHash hex.toList).length ≠ 6 →
      hexToRgba hex opacity = ⟨some 255, some 255, some 255, opacity⟩) := by
  constructor
  · intro c₀ c₁ c₂ c₃ c₄ c₅ v₀ v₁ v₂ v₃ v₄ v₅ hn h₀ h₁ h₂ h₃ h₄ h₅
    unfold hexToRgba
    rw [hn]
    rw [if_neg (by simp)]
    simp only [List.take, List.drop]
    rw [jsParseIntHex_pair c₀ c₁ v₀ v₁ h₀ h₁, jsParseIntHex_pair c₂ c₃ v₂ v₃ h₂ h₃,
      jsParseIntHex_pair c₄ c₅ v₄ v₅ h₄ h₅]
  · intro hlen
    unfold hexToRgba
    rw [if_pos hlen]

/-- Counterexample to C8 as stated: for the malformed hex `"abc"` and
opacity 1/2 the result is white at opacity 1/2, not opaque white. -/
theorem hexToRgba_opaque_white_counterexample :
    hexToRgba "abc" (1/2) = ⟨some 255, some 255, some 255, 1/2⟩ ∧
    hexToRgba "abc" (1/2) ≠ ⟨some 255, some 255, some 255, 1⟩ := by
  have heval : hexToRgba "abc" (1/2) = ⟨some 255, some 255, some 255, 1/2⟩ := by
    unfold hexToRgba
    rw [if_pos (by decide)]
  refine ⟨heval, ?_⟩
  rw [heval]
  intro hcon
  rw [Rgba.mk.injEq] at hcon
  norm_num at hcon

/-- Witness for C8 (amended): `#1e2b3a` parses to the bytes 30, 43, 58 with
opacity 3/4, and `xyz` degrades to white at opacity 3/4. -/
theorem hexToRgba_spec_witness :
    hexToRgba "#1e2b3a" (3/4) = ⟨some 30, some 43, some 58, 3/4⟩ ∧
    hexToRgba "xyz" (3/4) = ⟨some 255, some 255, some 255, 3/4⟩ := by
  constructor
  · have h := (hexToRgba_spec "#1e2b3a" (3/4)).1 '1' 'e' '2' 'b' '3' 'a' 1 14 2 11 3 10
      (by decide) (by decide) (by decide) (by decide) (by decide) (by decide) (by decide)
    rw [h]
    norm_num
  · exact (hexToRgba_spec "xyz" (3/4)).2 (by decide)

/-! ## Track/asset lookup (`canvas-utils`, `exporter.ts`) -/

/-- `getTrackByCell`: the source fills a `Map` skipping indices already
present, so the first track for each cell index wins. -/
def getTrackByCell (tracks : List Track) (cellIndex : ℕ) : Option Track :=
  tracks.find? (fun t => t.cellIndex = cellIndex)

/-- `new Map(project.assets.map(a => [a.id, a]))`: a JavaScript `Map` built
from entries keeps the last entry per key, so lookup finds the last asset
with the id. -/
def assetById (assets : List Asset) (id : String) : Option Asset :=
  assets.reverse.find? (fun a => a.id = id)

/-- `forEach((x, index) => ...)` / `map((x, index) => ...)`, modelled with an
explicit running index. -/
def mapWithIndex (f : ℕ → α → β) : ℕ → List α → List β
  | _, [] => []
  | i, a :: as => f i a :: mapWithIndex f (i + 1) as

theorem mapWithIndex_get? (f : ℕ → α → β) (s i : ℕ) (l : List α) :
    (mapWithIndex f s l).get? i = (l.get? i).map (f (s + i)) := by
  induction l generalizing s i with
  | nil => simp [mapWithIndex]
  | cons a as ih =>
    cases i with
    | zero => simp [mapWithIndex]
    | succ n =>
      simp only [mapWithIndex, List.get?]
      rw [ih (s + 1) n, show s + 1 + n = s + (n + 1) from by omega]

theorem mapWithIndex_length (f : ℕ → α → β) (s : ℕ) (l : List α) :
    (mapWithIndex f s l).length = l.length := by
  induction l generalizing s with
  | nil => rfl
  | cons a as ih => simp [mapWithIndex, ih]

/-! ## Frame compositor, still path (`exporter.ts`, `drawPlaceholder`) -/

inductive PlaceholderKind
  | audio
  | video
deriving DecidableEq, Repr

/-- The string the source passes as the placeholder `type`. -/
def placeholderKindName : PlaceholderKind → String
  | .audio => "audio"
  | .video => "video"

/-- JavaScript `String.prototype.toUpperCase`, restricted to the ASCII
inputs it receives here, as a per-character map. -/
def jsToUpperCase (s : String) : String := String.mk (s.data.map Char.toUpper)

/-- Structured content of the drawing done by `drawPlaceholder`
(`canvas-utils`): a two-stop linear gradient over the cell and a centered
uppercase label of the media kind. -/
structure PlaceholderSpec where
  stop0 : String
  stop1 : String
  label : String
  labelCenterX : ℚ
  labelCenterY : ℚ
deriving DecidableEq, Repr

def drawPlaceholder (x y width height : ℚ) (kind : PlaceholderKind) : PlaceholderSpec :=
  { stop0 := match kind with | .audio => "#1e1a45" | .video => "#1a3a45"
    stop1 := match kind with | .audio => "#3a2b7a" | .video => "#2b7387"
    label := jsToUpperCase (placeholderKindName kind)
    labelCenterX := x + width / 2
    labelCenterY := y + height / 2 }

/-- What the still exporter draws inside one cell after the base
`rgba(0,0,0,0.32)` fill: the loaded image, a placeholder, the faint
`rgba(255,255,255,0.06)` empty tint (no asset), or nothing at all (asset
present but no branch fires). -/
inductive CellPaint
  | visual (assetId : String)
  | placeholder (p : PlaceholderSpec)
  | emptyTint
  | baseOnly
deriving DecidableEq, Repr

def CellPaint.isPlaceholder : CellPaint → Bool
  | .placeholder _ => true
  | _ => false

/-- The per-cell branch of `exportProjectToImage` (`exporter.ts`, cell
rendering): a loaded image/logo is drawn, a video or audio asset gets a
placeholder, a missing asset gets the faint tint, and an image/logo asset
absent from the loaded map falls through every branch. -/
def renderStillCell (track : Option Track) (asset : Option Asset)
    (loadedImages : List String) (x y w h : ℚ) : CellPaint :=
  match track, asset with
  | some _, some a =>
    if (a.type = .image ∨ a.type = .logo) ∧ a.id ∈ loadedImages then .visual a.id
    else if a.type = .video then .placeholder (drawPlaceholder x y w h .video)
    else if a.type = .audio then .placeholder (drawPlaceholder x y w h .audio)
    else .baseOnly
  | _, _ => .emptyTint

/-- The still exporter's image preload (`exporter.ts`): for every track,
resolve its asset, keep images and logos, and record the ids whose load
succeeded; a failed load is caught and merely absent from the map.
`loadOk` abstracts whether `loadImageAsset` resolves for an asset id. -/
def preloadStillImages (tracks : List Track) (assets : List Asset)
    (loadOk : String → Bool) : List String :=
  ((tracks.filterMap (fun t => assetById assets t.assetId)).filter
    (fun a => a.type = .image ∨ a.type = .logo)).filterMap
    (fun a => if loadOk a.id then some a.id else none)

/-- The per-cell paints produced by the still exporter's
`grid.cells.forEach((cell, index) => ...)` loop. -/
def stillCellPaints (p : Project) (loadOk : String → Bool) (l : CanvasLayout) :
    List CellPaint :=
  let loaded := preloadStillImages p.tracks p.assets loadOk
  mapWithIndex
    (fun index cell =>
      let x := l.padding + cell.col * (l.cellWidth + l.gap)
      let y := l.padding + cell.row * (l.cellHeight + l.gap)
      let track := getTrackByCell p.tracks index
      let asset := track.bind (fun t => assetById p.assets t.assetId)
      renderStillCell track asset loaded x y l.cellWidth l.cellHeight)
    0 p.composition.grid.cells

/-- `exportProjectToImage` up to blob serialization: compute the layout
(possibly throwing the size error), preload images tolerating failures, and
render every cell.  The canvas/PNG encoding behind `canvas.toBlob` is beyond
the embedding; the model returns the per-cell paint decisions. -/
def exportProjectToImageModel (p : Project) (loadOk : String → Bool) :
    Except String (List CellPaint) :=
  match calculateCanvasLayout p.composition with
  | .error e => .error e
  | .ok l => .ok (stillCellPaints p loadOk l)

/-- C4: whenever the layout succeeds, the still export model resolves (it is
never rejected by a dangling track or a failed image load, whatever the load
outcomes are), renders one paint per grid cell, and a cell whose track
references no existing asset is painted with the faint empty tint rather
than an error. -/
theorem exportProjectToImage_tolerant (p : Project) (loadOk : String → Bool)
    (l : CanvasLayout) (hl : calculateCanvasLayout p.composition = .ok l) :
    exportProjectToImageModel p loadOk = .ok (stillCellPaints p loadOk l) ∧
    (stillCellPaints p loadOk l).length = p.composition.grid.cells.length ∧
    (∀ i t, i < p.composition.grid.cells.length →
      getTrackByCell p.tracks i = some t →
      assetById p.assets t.assetId = none →
      (stillCellPaints p loadOk l).get? i = some .emptyTint) := by
  refine ⟨?_, ?_, ?_⟩
  · unfold exportProjectToImageModel
    rw [hl]
  · exact mapWithIndex_length _ _ _
  · intro i t hi htrack hasset
    unfold stillCellPaints
    rw [mapWithIndex_get?]
    rcases hcell : p.composition.grid.cells.get? i with _ | cell
    · rw [List.get?_eq_none] at hcell
      omega
    · simp only [Option.map_some', Option.some.injEq, Nat.zero_add, htrack,
        Option.some_bind, hasset]
      rfl

def c4Asset : Asset := { id := "img1", type := .image }

def c4Project : Project :=
  { assets := [c4Asset]
    composition := c2Comp
    tracks := [{ assetId := "ghost", cellIndex := 0 }] }

/-- Witness for C4: a 1-cell project whose only track dangles renders the
cell as the empty tint and the export model resolves even when every image
load fails. -/
theorem exportProjectToImage_tolerant_witness :
    (∃ paints, exportProjectToImageModel c4Project (fun _ => false) = .ok paints ∧
      paints.get? 0 = some .emptyTint) := by
  have hl : calculateCanvasLayout c4Project.composition = .ok
      { canvasWidth := 2048, canvasHeight := 2048, padding := 10, gap := 0,
        innerWidth := 2028, innerHeight := 2028, cellWidth := 2028, cellHeight := 2028 } := by
    have hw : canvasWidthOf c4Project.composition 2048 = 2048 := by
      have hp : parseAspectRatio c4Project.composition.aspectRatio = ⟨1, 1⟩ := by decide
      simp only [canvasWidthOf, scaleFactorOf, clampedBaseSizeOf, hp, jsRound]
      norm_num [Int.floor_eq_iff, max_def]
    have hh : canvasHeightOf c4Project.composition 2048 = 2048 := by
      have hp : parseAspectRatio c4Project.composition.aspectRatio = ⟨1, 1⟩ := by decide
      simp only [canvasHeightOf, scaleFactorOf, clampedBaseSizeOf, hp, jsRound]
      norm_num [Int.floor_eq_iff, max_def]
    have hpad : paddingOf c4Project.composition = 10 := by decide
    have hgap : gapOf c4Project.composition = 0 := by decide
    show calculateCanvasLayout c4Project.composition BASE_EXPORT_SIZE = _
    simp only [calculateCanvasLayout, innerWidthOf, innerHeightOf, BASE_EXPORT_SIZE,
      hw, hh, hpad, hgap]
    norm_num [c4Project, c2Comp]
  obtain ⟨hok, _, hcell⟩ :=
    exportProjectToImage_tolerant c4Project (fun _ => false) _ hl
  exact ⟨_, hok, hcell 0 { assetId := "ghost", cellIndex := 0 } (by decide)
    (by decide) (by decide)⟩

/-- C7 (amended): in the still compositor a cell whose asset is audio always
receives the audio gradient placeholder and a cell whose asset is video (the
still path never loads videos) always receives the video placeholder — the
two gradients use distinct colors and the centered label is the uppercase
media kind — but a cell whose image or logo asset failed to load is left
with only the base tint, with no placeholder. -/
theorem renderStillCell_placeholder_rules (t : Track) (a : Asset)
    (loaded : List String) (x y w h : ℚ) :
    (a.type = .audio →
      renderStillCell (some t) (some a) loaded x y w h =
        .placeholder (drawPlaceholder x y w h .audio)) ∧
    (a.type = .video →
      renderStillCell (some t) (some a) loaded x y w h =
        .placeholder (drawPlaceholder x y w h .video)) ∧
    ((a.type = .image ∨ a.type = .logo) → a.id ∉ loaded →
      renderStillCell (some t) (some a) loaded x y w h = .baseOnly) ∧
    (drawPlaceholder x y w h .audio).stop0 ≠ (drawPlaceholder x y w h .video).stop0 ∧
    (drawPlaceholder x y w h .audio).stop1 ≠ (drawPlaceholder x y w h .video).stop1 ∧
    (drawPlaceholder x y w h .audio).label = "AUDIO" ∧
    (drawPlaceholder x y w h .video).label = "VIDEO" ∧
    (drawPlaceholder x y w h .audio).labelCenterX = x + w / 2 ∧
    (drawPlaceholder x y w h .audio).labelCenterY = y + h / 2 := by
  refine ⟨?_, ?_, ?_, by simp [drawPlaceholder], by simp [drawPlaceholder],
    by simp only [drawPlaceholder, placeholderKindName]; decide,
    by simp only [drawPlaceholder, placeholderKindName]; decide,
    by simp [drawPlaceholder], by simp [drawPlaceholder]⟩
  · intro ha
    simp [renderStillCell, ha]
  · intro ha
    simp [renderStillCell, ha]
  · intro ha hnot
    rcases ha with ha | ha <;> simp [renderStillCell, ha, hnot]

/-- Counterexample to C7 as stated: a cell whose image asset failed to load
(absent from the loaded map) is not painted with any placeholder; it is left
with only the base tint. -/
theorem renderStillCell_image_failure_counterexample :
    renderStillCell (some { assetId := "img1", cellIndex := 0 }) (some c4Asset)
      [] 0 0 100 100 = .baseOnly ∧
    (renderStillCell (some { assetId := "img1", cellIndex := 0 }) (some c4Asset)
      [] 0 0 100 100).isPlaceholder = false := by
  constructor <;> rfl

def c7AudioAsset : Asset := { id := "bgm", type := .audio }

def c7VideoAsset : Asset := { id := "clip", type := .video }

/-- Witness for C7 (amended) at concrete cells. -/
theorem renderStillCell_placeholder_rules_witness :
    renderStillCell (some { assetId := "bgm", cellIndex := 0 }) (some c7AudioAsset)
      [] 0 0 100 50 = .placeholder (drawPlaceholder 0 0 100 50 .audio) ∧
    renderStillCell (some { assetId := "clip", cellIndex := 1 }) (some c7VideoAsset)
      [] 0 0 100 50 = .placeholder (drawPlaceholder 0 0 100 50 .video) ∧
    renderStillCell (some { assetId := "img1", cellIndex := 2 }) (some c4Asset)
      [] 0 0 100 50 = .baseOnly ∧
    (drawPlaceholder 0 0 100 50 .audio).label = "AUDIO" := by
  refine ⟨?_, ?_, ?_, ?_⟩
  · exact (renderStillCell_placeholder_rules { assetId := "bgm", cellIndex := 0 }
      c7AudioAsset [] 0 0 100 50).1 (by decide)
  · exact (renderStillCell_placeholder_rules { assetId := "clip", cellIndex := 1 }
      c7VideoAsset [] 0 0 100 50).2.1 (by decide)
  · exact (renderStillCell_placeholder_rules { assetId := "img1", cellIndex := 2 }
      c4Asset [] 0 0 100 50).2.2.1 (by decide) (by decide)
  · exact (renderStillCell_placeholder_rules { assetId := "bgm", cellIndex := 0 }
      c7AudioAsset [] 0 0 100 50).2.2.2.2.2.1

/-! ## Sanitizers (`media-metadata.ts`, `video-exporter.ts`) -/

def MIN_FPS : ℚ := 1

def MAX_FPS : ℚ := 60

/-- `sanitizeFrameRate`: `undefined` for a missing/non-positive value,
otherwise clamped to `[MIN_FPS, MAX_FPS]`. -/
def sanitizeFrameRate (value : Option ℚ) : Option ℚ :=
  match value with
  | some v => if 0 < v then some (min MAX_FPS (max MIN_FPS v)) else none
  | none => none

def MIN_VIDEO_BITS_PER_SECOND : ℚ := 1000000

def MAX_VIDEO_BITS_PER_SECOND : ℚ := 40000000

def DEFAULT_AUDIO_BITS_PER_SECOND : ℚ := 130000

/-- `sanitizeBitsPerSecond` (`video-exporter.ts`): `undefined` for a
missing/non-positive value, otherwise rounded after clamping to
`[MIN_VIDEO_BITS_PER_SECOND, MAX_VIDEO_BITS_PER_SECOND]`. -/
def sanitizeBitsPerSecond (value : Option ℚ) : Option ℤ :=
  match value with
  | some v =>
    if v ≤ 0 then none
    else some (jsRound (min MAX_VIDEO_BITS_PER_SECOND (max MIN_VIDEO_BITS_PER_SECOND v)))
  | none => none

/-- `pickFirstPositive(...values)`: the first finite positive value. -/
def pickFirstPositive (values : List (Option ℚ)) : Option ℚ :=
  values.findSome? (fun v =>
    match v with
    | some x => if 0 < x then some x else none
    | none => none)

/-- JavaScript truthiness of a number that may be absent (`undefined`, NaN
and 0 are falsy). -/
def qTruthy : Option ℚ → Bool
  | some v => decide (v ≠ 0)
  | none => false

/-! ## Video exporter, batch (Node) path (`video-exporter.ts`) -/

/-- Result of `probeVideoMetadata` (`src/lib/server/ffprobe`, consumed here
only through its fields). -/
structure ProbeMeta where
  fps : Option ℚ := none
  duration : Option ℚ := none
  bitrate : Option ℚ := none
  audioBitrate : Option ℚ := none
  hasAudio : Bool := false
deriving DecidableEq, Repr

structure ExportOptions where
  durationSeconds : Option ℚ := none
  fps : Option ℚ := none
  videoBitrateMbps : Option ℚ := none
  videoBitsPerSecond : Option ℚ := none
  audioBitrateKbps : Option ℚ := none
  audioBitsPerSecond : Option ℚ := none
  maxDimension : Option ℚ := none
deriving DecidableEq, Repr

structure NodeCell where
  index : ℕ
  row : ℕ
  col : ℕ
  track : Track
  asset : Asset
  filePath : String
deriving DecidableEq, Repr

/-- The video-cell filter of `exportProjectToMp4Node`: for every grid cell,
the first-wins track and Map-resolved asset must exist and be a video;
`resolvePath` abstracts `toAbsoluteAssetPath`. -/
def nodeVideoCells (resolvePath : String → String) (p : Project) : List NodeCell :=
  (mapWithIndex
    (fun index cell =>
      match getTrackByCell p.tracks index with
      | none => none
      | some track =>
        match assetById p.assets track.assetId with
        | none => none
        | some asset =>
          if asset.type = .video then
            some { index, row := cell.row, col := cell.col, track, asset,
                   filePath := resolvePath asset.url }
          else none)
    0 p.composition.grid.cells).filterMap id

/-- The batch fps resolution: first positive of option fps, the first cell's
asset fps, the first probe's fps, and the per-cell `metadata[i].fps ??
asset.fps` candidates, sanitized, defaulting to 30. -/
def nodeFps (options : ExportOptions) (cells : List NodeCell)
    (metadata : List ProbeMeta) : ℚ :=
  (sanitizeFrameRate (pickFirstPositive
    [options.fps,
     cells.head?.bind (fun c => c.asset.fps),
     metadata.head?.bind ProbeMeta.fps,
     (mapWithIndex (fun i c => ((metadata.get? i).bind ProbeMeta.fps).or c.asset.fps)
       0 cells).findSome? id])).getD 30

/-- The batch duration resolution, defaulting to 3 seconds. -/
def nodeDurationSeconds (options : ExportOptions) (cells : List NodeCell)
    (metadata : List ProbeMeta) : ℚ :=
  (pickFirstPositive
    [options.durationSeconds,
     cells.head?.bind (fun c => c.track.duration),
     cells.head?.bind (fun c => c.asset.duration),
     metadata.head?.bind ProbeMeta.duration,
     (metadata.map ProbeMeta.duration).findSome? id]).getD 3

/-- The batch video bitrate resolution: the explicit option (bits, or Mbps
when truthy) or the first probe's bitrate, sanitized; otherwise the largest
positive probed bitrate, sanitized; otherwise `5 Mbps × max(1, cell count)`,
sanitized. -/
def nodeVideoBitsPerSecond (options : ExportOptions) (metadata : List ProbeMeta)
    (cellCount : ℕ) : Option ℤ :=
  let explicit : Option ℚ :=
    match options.videoBitsPerSecond with
    | some v => some v
    | none =>
      match options.videoBitrateMbps with
      | some m => if m = 0 then metadata.head?.bind ProbeMeta.bitrate else some (m * 1000000)
      | none => metadata.head?.bind ProbeMeta.bitrate
  let r₁ := sanitizeBitsPerSecond explicit
  let r₂ :=
    match r₁ with
    | some v => some v
    | none =>
      match ((metadata.filterMap ProbeMeta.bitrate).filter (fun v => 0 < v)).max? with
      | some m => sanitizeBitsPerSecond (some m)
      | none => none
  match r₂ with
  | some v => some v
  | none => sanitizeBitsPerSecond (some (5000000 * max 1 (cellCount : ℚ)))

/-- The batch audio bitrate resolution: explicit option (bits, or rounded
kbps), else the first probe with a positive audio bitrate, rounded, else the
130 kbps default when any input has audio. -/
def nodeAudioBitsPerSecond (options : ExportOptions) (metadata : List ProbeMeta) :
    Option ℚ :=
  let a₀ : Option ℚ :=
    match options.audioBitsPerSecond with
    | some v => some v
    | none =>
      match options.audioBitrateKbps with
      | some k => if k = 0 then none else some ((jsRound (k * 1000) : ℤ) : ℚ)
      | none => none
  let a₁ :=
    if qTruthy a₀ then a₀
    else
      match metadata.find? (fun m =>
        match m.audioBitrate with
        | some b => decide (0 < b)
        | none => false) with
      | some m => m.audioBitrate.map (fun b => ((jsRound b : ℤ) : ℚ))
      | none => a₀
  if qTruthy a₁ then a₁
  else if metadata.any (fun m => m.hasAudio) then some DEFAULT_AUDIO_BITS_PER_SECOND else a₁

/-- The encoding parameters `exportProjectToMp4Node` assembles before
invoking ffmpeg. -/
structure NodePlan where
  cells : List NodeCell
  fps : ℚ
  durationSeconds : ℚ
  videoBitsPerSecond : Option ℤ
  audioBitsPerSecond : Option ℚ
  hasAudio : Bool
deriving DecidableEq, Repr

/-- The probe loop body: a probe failure is rethrown with the source's
wrapped message. -/
def probeCell (probe : String → Except String ProbeMeta) (c : NodeCell) :
    Except String ProbeMeta :=
  match probe c.filePath with
  | .ok m => .ok m
  | .error e => .error ("Failed to probe video asset at " ++ c.filePath ++ ": " ++ e)

/-- `exportProjectToMp4Node` up to the assembled encoding parameters: the
video-cell filter and guard, the probe loop, and the fps/duration/bitrate
resolution.  `probe` abstracts `probeVideoMetadata`; the temp directory and
the ffmpeg process — which the source only touches after everything
modelled here — are beyond the embedding. -/
def exportProjectToMp4Node (resolvePath : String → String)
    (probe : String → Except String ProbeMeta) (p : Project)
    (options : ExportOptions) : Except String NodePlan :=
  let cells := nodeVideoCells resolvePath p
  if cells.isEmpty then .error "Video export requires at least one video asset."
  else
    match cells.mapM (probeCell probe) with
    | .error e => .error e
    | .ok metadata =>
      .ok { cells
            fps := nodeFps options cells metadata
            durationSeconds := nodeDurationSeconds options cells metadata
            videoBitsPerSecond := nodeVideoBitsPerSecond options metadata cells.length
            audioBitsPerSecond := nodeAudioBitsPerSecond options metadata
            hasAudio := metadata.any (fun m => m.hasAudio) }

inductive ExportRoute
  | node (result : Except String NodePlan)
  | interactive
deriving DecidableEq

/-- The environment dispatch at the top of `exportProjectToMp4`: outside a
browser the Node batch path runs. -/
def exportProjectToMp4Route (isBrowser : Bool) (resolvePath : String → String)
    (probe : String → Except String ProbeMeta) (p : Project)
    (options : ExportOptions) : ExportRoute :=
  if isBrowser then .interactive
  else .node (exportProjectToMp4Node resolvePath probe p options)

theorem mapWithIndex_filterMap_nil {α β : Type} (f : ℕ → α → Option β) (l : List α)
    (s : ℕ) (h : ∀ i a, f i a = none) : (mapWithIndex f s l).filterMap id = [] := by
  induction l generalizing s with
  | nil => rfl
  | cons a as ih => simp [mapWithIndex, List.filterMap_cons, h s a, ih (s + 1)]

/-- `jsRound` is the identity on integers. -/
theorem jsRound_intCast (z : ℤ) : jsRound ((z : ℚ)) = z := by
  unfold jsRound
  rw [Int.floor_eq_iff]
  constructor <;> norm_num

/-- C10: in a non-browser environment `exportProjectToMp4` routes to the
Node batch path, and whenever no grid cell has a (first-wins) track bound to
an existing asset of type video, that path rejects with the exact guard
message — for every probe oracle, so no probing can have been consulted. -/
theorem exportProjectToMp4Node_requires_video (resolvePath : String → String)
    (probe : String → Except String ProbeMeta) (p : Project) (options : ExportOptions)
    (hnovideo : ∀ i t a, getTrackByCell p.tracks i = some t →
      assetById p.assets t.assetId = some a → a.type ≠ .video) :
    exportProjectToMp4Route false resolvePath probe p options =
      .node (.error "Video export requires at least one video asset.") ∧
    exportProjectToMp4Node resolvePath probe p options =
      .error "Video export requires at least one video asset." := by
  have hcells : nodeVideoCells resolvePath p = [] := by
    unfold nodeVideoCells
    apply mapWithIndex_filterMap_nil
    intro i cell
    rcases htrack : getTrackByCell p.tracks i with _ | t
    · simp
    · rcases hasset : assetById p.assets t.assetId with _ | a
      · simp [htrack, hasset]
      · have := hnovideo i t a htrack hasset
        simp [htrack, hasset, this]
  have hnode : exportProjectToMp4Node resolvePath probe p options =
      .error "Video export requires at least one video asset." := by
    unfold exportProjectToMp4Node
    rw [hcells]
    rfl
  exact ⟨by unfold exportProjectToMp4Route; rw [if_neg (by simp), hnode], hnode⟩

def c10ImageAsset : Asset := { id := "pic", type := .image }

def c10AudioAsset : Asset := { id := "song", type := .audio }

def c10Project : Project :=
  { assets := [c10ImageAsset, c10AudioAsset]
    composition :=
      { aspectRatio := "1:1"
        grid := { rows := 1, cols := 2, cells := [⟨"", 0, 0⟩, ⟨"", 0, 1⟩] }
        style := {} }
    tracks := [{ assetId := "pic", cellIndex := 0 }, { assetId := "song", cellIndex := 1 }] }

/-- Witness for C10: an image-plus-audio project is rejected by the batch
guard for an arbitrary concrete probe oracle. -/
theorem exportProjectToMp4Node_requires_video_witness :
    exportProjectToMp4Route false id (fun _ => .ok {}) c10Project {} =
      .node (.error "Video export requires at least one video asset.") ∧
    exportProjectToMp4Node id (fun _ => .ok {}) c10Project {} =
      .error "Video export requires at least one video asset." := by
  refine exportProjectToMp4Node_requires_video id (fun _ => .ok {}) c10Project {} ?_
  intro i t a htrack hasset
  have hmem := List.mem_of_find?_eq_some htrack
  simp only [c10Project, List.mem_cons, List.not_mem_nil, or_false] at hmem
  rcases hmem with rfl | rfl
  · rw [show assetById c10Project.assets
        ({ assetId := "pic", cellIndex := 0 } : Track).assetId = some c10ImageAsset from rfl]
      at hasset
    cases Option.some.inj hasset
    decide
  · rw [show assetById c10Project.assets
        ({ assetId := "song", cellIndex := 1 } : Track).assetId = some c10AudioAsset from rfl]
      at hasset
    cases Option.some.inj hasset
    decide

/-- C6 (amended): with no explicit bitrate option and no probed bitrate, the
batch video bitrate resolves to `5 Mbps × max(1, cell count)` clamped to the
40 Mbps maximum (the lower 1 Mbps clamp and the rounding are inert because
the product is an integer ≥ 5 Mbps). -/
theorem nodeVideoBitsPerSecond_fallback (options : ExportOptions)
    (metadata : List ProbeMeta) (n : ℕ)
    (h₁ : options.videoBitsPerSecond = none) (h₂ : options.videoBitrateMbps = none)
    (h₃ : ∀ m ∈ metadata, m.bitrate = none) :
    nodeVideoBitsPerSecond options metadata n =
      some (min 40000000 (5000000 * max 1 (n : ℤ))) := by
  have hhead : metadata.head?.bind ProbeMeta.bitrate = none := by
    rcases metadata with _ | ⟨m, rest⟩
    · rfl
    · simp [h₃ m (List.mem_cons_self m rest)]
  have hfm : metadata.filterMap ProbeMeta.bitrate = [] :=
    List.filterMap_eq_nil.mpr h₃
  have hM1 : (1 : ℚ) ≤ max 1 (n : ℚ) := le_max_left _ _
  have hlow : max MIN_VIDEO_BITS_PER_SECOND (5000000 * max 1 (n : ℚ)) =
      5000000 * max 1 (n : ℚ) := by
    apply max_eq_right
    unfold MIN_VIDEO_BITS_PER_SECOND
    nlinarith
  have hpos : ¬(5000000 * max 1 (n : ℚ) ≤ 0) := by nlinarith
  have hcast : min MAX_VIDEO_BITS_PER_SECOND (5000000 * max 1 (n : ℚ)) =
      (((min 40000000 (5000000 * max 1 (n : ℤ)) : ℤ) : ℚ)) := by
    unfold MAX_VIDEO_BITS_PER_SECOND
    push_cast
    rfl
  unfold nodeVideoBitsPerSecond
  simp only [h₁, h₂, hhead, hfm, sanitizeBitsPerSecond, List.filter_nil, List.max?_nil]
  rw [if_neg hpos, hlow, hcast, jsRound_intCast]

/-- Counterexample to C6 as stated: with 9 video cells the resolved bitrate
is the 40 Mbps clamp, not `5,000,000 × 9 = 45,000,000`. -/
theorem nodeVideoBitsPerSecond_cap_counterexample :
    nodeVideoBitsPerSecond {} [] 9 = some 40000000 ∧
    (40000000 : ℤ) ≠ 5000000 * max 1 (9 : ℤ) := by
  constructor
  · unfold nodeVideoBitsPerSecond sanitizeBitsPerSecond
    norm_num [MIN_VIDEO_BITS_PER_SECOND, MAX_VIDEO_BITS_PER_SECOND, jsRound,
      Int.floor_eq_iff, max_def, min_def]
  · norm_num [max_def]

/-- Witness for C6 (amended): three probed cells reporting no bitrate and no
options resolve to exactly 15,000,000 bits per second. -/
theorem nodeVideoBitsPerSecond_fallback_witness :
    nodeVideoBitsPerSecond {} [{}, {}, {}] 3 = some 15000000 := by
  have h := nodeVideoBitsPerSecond_fallback {} [{}, {}, {}] 3 rfl rfl (by
    intro m hm
    simp only [List.mem_cons, List.not_mem_nil, or_false] at hm
    rcases hm with rfl | rfl | rfl <;> rfl)
  rw [h]
  norm_num [max_def, min_def]

/-! ## Video exporter, interactive path: fps and pacing (`video-exporter.ts`) -/

/-- The fps-related values of the interactive `exportProjectToMp4`. -/
structure InteractivePacing where
  fps : ℚ
  captureFrameRate : ℚ
  effectiveFps : ℚ
  timeslice : ℤ
  frameInterval : ℚ
  reportedFps : ℚ
deriving DecidableEq, Repr

/-- The fps pipeline of the interactive path.  `fps₀` is the initial
requested/derived fps (options, first cell's asset fps, clamped fallback
over all assets, default 30); `fps` is its value after the measured
first-cell override that runs when neither options nor the first-cell
asset provided one.  `effectiveFps` is initialized from `fps₀` — the
source's `let effectiveFps = fps` executes before the measured override
and is never re-synced — and is replaced only by a truthy finite
negotiated capture-track reading (`negotiatedFrameRate` is `some r`
exactly in that case; a falsy zero, a non-finite reading or a failed
`getSettings` is `none` and keeps the initial value), with a final
fall-back to `captureFrameRate = max(1, fps)` when the resulting value is
not finite positive.  The recorder timeslice is
`max(250, round(1000 / max(effectiveFps, 1)))`, the render loop's
`frameInterval = 1000 / max(fps, 1)`, and the fps reported in the returned
result is `effectiveFps`. -/
def interactivePacing (optionsFps firstCellAssetFps fallbackAssetFps
    measuredFirstCellFps negotiatedFrameRate : Option ℚ) : InteractivePacing :=
  let derivedFps := sanitizeFrameRate firstCellAssetFps
  let fps₀ := optionsFps.getD (derivedFps.getD ((sanitizeFrameRate fallbackAssetFps).getD 30))
  let fps :=
    if qTruthy optionsFps = false ∧ derivedFps = none then
      match sanitizeFrameRate measuredFirstCellFps with
      | some m => m
      | none => fps₀
    else fps₀
  let captureFrameRate := max 1 fps
  let e₀ :=
    match negotiatedFrameRate with
    | some r => r
    | none => fps₀
  let effectiveFps := if e₀ ≤ 0 then captureFrameRate else e₀
  { fps
    captureFrameRate
    effectiveFps
    timeslice := max 250 (jsRound (1000 / max effectiveFps 1))
    frameInterval := 1000 / max fps 1
    reportedFps := effectiveFps }

/-- C5 (amended): in the interactive path the negotiated capture frame rate
becomes the effective fps, which is used for the recorder timeslice and is
the fps reported in the result — but the render loop's frame interval is
computed from the requested fps, not the effective fps; in the batch path an
explicitly requested positive fps is used after `sanitizeFrameRate`'s clamp
to `[1, 60]` — directly whenever it already lies in that range. -/
theorem exportFps_resolution (requested negotiated : ℚ)
    (hreq : 0 < requested) (hneg : 0 < negotiated) :
    (interactivePacing (some requested) none none none (some negotiated)).effectiveFps
        = negotiated ∧
    (interactivePacing (some requested) none none none (some negotiated)).reportedFps
        = negotiated ∧
    (interactivePacing (some requested) none none none (some negotiated)).timeslice
        = max 250 (jsRound (1000 / max negotiated 1)) ∧
    (interactivePacing (some requested) none none none (some negotiated)).frameInterval
        = 1000 / max requested 1 ∧
    nodeFps { fps := some requested } [] [] = min 60 (max 1 requested) := by
  have hne : requested ≠ 0 := hreq.ne'
  have hnle : ¬negotiated ≤ 0 := not_le.mpr hneg
  refine ⟨?_, ?_, ?_, ?_, ?_⟩
  · simp [interactivePacing, hnle]
  · simp [interactivePacing, hnle]
  · simp [interactivePacing, hnle]
  · simp [interactivePacing, qTruthy, hne]
  · unfold nodeFps pickFirstPositive
    simp [List.findSome?_cons, hreq, sanitizeFrameRate, MIN_FPS, MAX_FPS]

/-- Counterexample to C5 as stated: with requested fps 24 and negotiated
capture fps 30 the render loop's frame interval is `1000/24`, not
`1000/effectiveFps = 1000/30`; and in the batch path an explicitly requested
fps of 120 resolves to the clamped 60, so it is not used directly. -/
theorem exportFps_frameInterval_counterexample :
    (interactivePacing (some 24) none none none (some 30)).effectiveFps = 30 ∧
    (interactivePacing (some 24) none none none (some 30)).reportedFps = 30 ∧
    (interactivePacing (some 24) none none none (some 30)).frameInterval = 1000 / 24 ∧
    (interactivePacing (some 24) none none none (some 30)).frameInterval ≠
      1000 / max (interactivePacing (some 24) none none none (some 30)).effectiveFps 1 ∧
    nodeFps { fps := some 120 } [] [] = 60 ∧
    (60 : ℚ) ≠ 120 := by
  have h24 : ((24 : ℚ)) ≠ 0 := by norm_num
  have heff : (interactivePacing (some 24) none none none (some 30)).effectiveFps = 30 := by
    simp [interactivePacing]
  have hfi : (interactivePacing (some 24) none none none (some 30)).frameInterval
      = 1000 / 24 := by
    simp only [interactivePacing, qTruthy, h24]
    norm_num [max_def]
  have hbatch : nodeFps { fps := some 120 } [] [] = 60 := by
    unfold nodeFps pickFirstPositive
    have h120 : (0 : ℚ) < 120 := by norm_num
    simp [List.findSome?_cons, h120, sanitizeFrameRate, MIN_FPS, MAX_FPS]
    norm_num [max_def, min_def]
  refine ⟨heff, heff, hfi, ?_, hbatch, by norm_num⟩
  rw [hfi, heff]
  norm_num [max_def]

/-- Witness for C5 (amended) at requested 24, negotiated 30: the clamp is
inert at 24, so the batch path uses the requested value directly. -/
theorem exportFps_resolution_witness :
    (interactivePacing (some 24) none none none (some 30)).effectiveFps = 30 ∧
    (interactivePacing (some 24) none none none (some 30)).reportedFps = 30 ∧
    (interactivePacing (some 24) none none none (some 30)).timeslice
      = max 250 (jsRound (1000 / max 30 1)) ∧
    (interactivePacing (some 24) none none none (some 30)).frameInterval
      = 1000 / max 24 1 ∧
    nodeFps { fps := some 24 } [] [] = 24 := by
  have h := exportFps_resolution 24 30 (by norm_num) (by norm_num)
  refine ⟨h.1, h.2.1, h.2.2.1, h.2.2.2.1, ?_⟩
  rw [h.2.2.2.2]
  norm_num [max_def, min_def]

/-! ## Video exporter, interactive path: recording tail and cleanup -/

structure VideoElementState where
  paused : Bool := false
  currentTime : ℚ := 0
  cleanupThrows : Bool := false
deriving DecidableEq, Repr

/-- One iteration of the cleanup loop: `try { pause(); currentTime = 0 }
catch { /- swallowed -/ }`; a throwing element is left untouched. -/
def cleanupVideo (v : VideoElementState) : VideoElementState :=
  if v.cleanupThrows then v else { v with paused := true, currentTime := 0 }

structure BlobData where
  size : ℕ := 0
  type : String := ""
deriving DecidableEq, Repr

structure Mp4Result where
  blob : BlobData
  mimeType : String
  fileExtension : String
  fps : ℚ
  durationSeconds : ℚ
deriving DecidableEq, Repr

/-- The tail of the interactive `exportProjectToMp4` after the render loop:
stop the recorder, `await recordingPromise` — when the recorder errored this
promise is rejected, the `await` re-throws, and the rest of the function
(including the video cleanup loop) never runs — otherwise pause and rewind
every video element (each wrapped in a try/catch that swallows cleanup
errors) and return the result carrying the effective fps. -/
def exportProjectToMp4Tail (videos : List VideoElementState)
    (recording : Except String BlobData) (mimeType extension : String)
    (effectiveFps durationSeconds : ℚ) :
    Except String Mp4Result × List VideoElementState :=
  match recording with
  | .error e => (.error e, videos)
  | .ok blob =>
    (.ok { blob
           mimeType := if blob.type = "" then mimeType else blob.type
           fileExtension := extension
           fps := effectiveFps
           durationSeconds := durationSeconds },
     videos.map cleanupVideo)

/-- C9 (amended): on the successful exit path — which includes the
timeout-driven stop, the only way the render loop ends — every video whose
cleanup does not throw is paused and rewound to 0, throwing cleanups are
swallowed without affecting the result, and the export resolves; but when
the recorder errored, the rejection propagates before the cleanup loop, so
the video elements are left untouched. -/
theorem exportProjectToMp4Tail_cleanup (videos : List VideoElementState)
    (blob : BlobData) (mt ext : String) (f d : ℚ) (e : String) :
    ((exportProjectToMp4Tail videos (.ok blob) mt ext f d).1 =
      .ok { blob := blob
            mimeType := if blob.type = "" then mt else blob.type
            fileExtension := ext
            fps := f
            durationSeconds := d } ∧
     (∀ v ∈ (exportProjectToMp4Tail videos (.ok blob) mt ext f d).2,
        v.cleanupThrows = false → v.paused = true ∧ v.currentTime = 0) ∧
     (exportProjectToMp4Tail videos (.ok blob) mt ext f d).2.length = videos.length) ∧
    exportProjectToMp4Tail videos (.error e) mt ext f d = (.error e, videos) := by
  refine ⟨⟨rfl, ?_, by simp [exportProjectToMp4Tail]⟩, rfl⟩
  intro v hv hthrow
  simp only [exportProjectToMp4Tail, List.mem_map] at hv
  obtain ⟨u, _, rfl⟩ := hv
  by_cases hu : u.cleanupThrows
  · rw [cleanupVideo, if_pos hu] at hthrow
    exact absurd hthrow (by simp [hu])
  · rw [cleanupVideo, if_neg hu]
    exact ⟨rfl, rfl⟩

def c9Video : VideoElementState := { paused := false, currentTime := 5 }

/-- Counterexample to C9 as stated: when the recorder rejects the export,
the playing video is neither paused nor rewound. -/
theorem exportProjectToMp4Tail_error_counterexample :
    (exportProjectToMp4Tail [c9Video]
      (.error "MediaRecorder encountered an error.") "video/webm" "webm" 30 3).2 =
      [c9Video] ∧
    ((exportProjectToMp4Tail [c9Video]
      (.error "MediaRecorder encountered an error.") "video/webm" "webm" 30 3).2.all
        (fun v => v.paused)) = false ∧
    (exportProjectToMp4Tail [c9Video]
      (.error "MediaRecorder encountered an error.") "video/webm" "webm" 30 3).1 =
      .error "MediaRecorder encountered an error." := by
  exact ⟨rfl, rfl, rfl⟩

/-- Witness for C9 (amended): on success a playing video is paused and
rewound, a throwing one is skipped, and the result carries the blob. -/
theorem exportProjectToMp4Tail_cleanup_witness :
    (exportProjectToMp4Tail [c9Video, { cleanupThrows := true }]
      (.ok { size := 42, type := "video/webm" }) "video/mp4" "webm" 30 3).1 =
      .ok { blob := { size := 42, type := "video/webm" }
            mimeType := "video/webm", fileExtension := "webm"
            fps := 30, durationSeconds := 3 } ∧
    (∀ v ∈ (exportProjectToMp4Tail [c9Video, { cleanupThrows := true }]
        (.ok { size := 42, type := "video/webm" }) "video/mp4" "webm" 30 3).2,
      v.cleanupThrows = false → v.paused = true ∧ v.currentTime = 0) ∧
    exportProjectToMp4Tail [c9Video] (.error "boom") "video/mp4" "webm" 30 3 =
      (.error "boom", [c9Video]) := by
  have h := exportProjectToMp4Tail_cleanup [c9Video, { cleanupThrows := true }]
    { size := 42, type := "video/webm" } "video/mp4" "webm" 30 3 "boom"
  refine ⟨?_, h.1.2.1, ?_⟩
  · rw [h.1.1]
    rfl
  · exact (exportProjectToMp4Tail_cleanup [c9Video] { size := 42, type := "video/webm" }
      "video/mp4" "webm" 30 3 "boom").2

end Tilely
